import Mathlib

/-!
Shallow embedding of the Brand-Mosaic Photo-Studio scene-generation pipeline:
the mood sanitizer/classifier/resolver (`components/photo-studio/InterpretationEngine.ts`)
and the scene-generation service (prompt builders, quality validator, provider
cascade and batch orchestrator).  Network calls are abstracted by oracles; all
string processing is modelled faithfully on `List Char`.
-/

-- ══════════════ Character and string helpers ══════════════

/-- JS `\s` whitespace class, restricted to the ASCII whitespace characters. -/
def isWS (c : Char) : Bool :=
  c == ' ' || c == '\t' || c == '\n' || c == '\r' || c == Char.ofNat 11 || c == Char.ofNat 12

/-- JS `\w` word character: ASCII letter, digit, or underscore. -/
def isWordChar (c : Char) : Bool :=
  c.isAlphanum || c == '_'

/-- Contiguous-subsequence test on character lists. -/
def containsSeq (pat : List Char) : List Char → Bool
  | [] => pat.isEmpty
  | c :: cs => pat.isPrefixOf (c :: cs) || containsSeq pat cs

/-- `s.includes(pat)`: substring test, via list infix. -/
def strContains (s pat : String) : Bool :=
  containsSeq pat.toList s.toList

theorem length_dropWhile_le (p : Char → Bool) (l : List Char) :
    (l.dropWhile p).length ≤ l.length := by
  induction l with
  | nil => simp [List.dropWhile]
  | cons c cs ih =>
    rw [List.dropWhile_cons]
    split
    · exact Nat.le_trans ih (Nat.le_succ _)
    · exact Nat.le_refl _

/-- Case-insensitive character equality (ASCII lowering, as in the `i` regex flag
for the ASCII-only word lists of the sanitizer). -/
def lowerEq (a b : Char) : Bool :=
  a.toLower == b.toLower

/-- Case-insensitive list-prefix test. -/
def ciStarts : List Char → List Char → Bool
  | [], _ => true
  | _ :: _, [] => false
  | a :: w, b :: l => lowerEq a b && ciStarts w l

-- ══════════════ Sanitizer (InterpretationEngine.sanitizeInput) ══════════════

/-- Does `l` start with `pre` followed by at least one non-whitespace character? -/
def schemeAt (pre l : List Char) : Bool :=
  pre.isPrefixOf l &&
    (match l.drop pre.length with
     | [] => false
     | c :: _ => !(isWS c))

/-- Does the list start with a match of `https?:\/\/\S+`? -/
def urlAt (l : List Char) : Bool :=
  schemeAt "http://".toList l || schemeAt "https://".toList l

/-- Scanner for `input.replace(/https?:\/\/\S+/g, '')`: each match runs to
the end of the current non-whitespace run, so `skipping` records whether the
scanner is inside a match being deleted. -/
def removeUrlsGo : Bool → List Char → List Char
  | _, [] => []
  | true, c :: cs => if isWS c then c :: removeUrlsGo false cs else removeUrlsGo true cs
  | false, c :: cs =>
    if urlAt (c :: cs) then removeUrlsGo true cs
    else c :: removeUrlsGo false cs

def removeUrls (l : List Char) : List Char :=
  removeUrlsGo false l

/-- Membership in the emoji/pictograph code-point ranges stripped by the
sanitizer's emoji regex. -/
def isEmojiChar (c : Char) : Bool :=
  let n := c.toNat
  (decide (0x1F600 ≤ n) && decide (n ≤ 0x1F9FF)) ||
  (decide (0x2600 ≤ n) && decide (n ≤ 0x26FF)) ||
  (decide (0x2700 ≤ n) && decide (n ≤ 0x27BF)) ||
  (decide (0x1F300 ≤ n) && decide (n ≤ 0x1F5FF)) ||
  (decide (0x1F680 ≤ n) && decide (n ≤ 0x1F6FF)) ||
  (decide (0x1FA00 ≤ n) && decide (n ≤ 0x1FA6F))

/-- After a candidate match of `w`, a `\b` boundary requires the next original
character (if any) to be a non-word character. -/
def boundaryAfter (w l : List Char) : Bool :=
  match l.drop w.length with
  | [] => true
  | d :: _ => !(isWordChar d)

/-- One pass of `text.replace(new RegExp('\\b' + w + '\\b', 'gi'), '')`.
`skip` counts match characters still to be deleted; `prevWord` records whether
the previous original character is a word character (which blocks the leading
`\b`).  On a match the scanner deletes the current character together with the
remaining `w.length - 1`, resuming with `prevWord = true` (every stripped word
ends in a word character). -/
def removeWordGo (w : List Char) : Nat → Bool → List Char → List Char
  | _, _, [] => []
  | Nat.succ k, prevWord, _ :: cs => removeWordGo w k prevWord cs
  | 0, prevWord, c :: cs =>
    if w ≠ [] ∧ prevWord = false ∧ ciStarts w (c :: cs) = true ∧ boundaryAfter w (c :: cs) = true then
      removeWordGo w (w.length - 1) true cs
    else c :: removeWordGo w 0 (isWordChar c) cs

/-- Remove every word-boundary, case-insensitive occurrence of `w`. -/
def removeWordCI (w : String) (l : List Char) : List Char :=
  removeWordGo w.toList 0 false l

/-- Apply the per-word replacements in order, as the source's successive
`replace` calls do. -/
def stripWords (ws : List String) (l : List Char) : List Char :=
  ws.foldl (fun acc w => removeWordCI w acc) l

/-- `.replace(/\s+/g, ' ')`: collapse each whitespace run to a single space.
`prevWS` records whether the previous character was whitespace, in which case
the current run has already emitted its single space. -/
def collapseWSGo : Bool → List Char → List Char
  | _, [] => []
  | prevWS, c :: cs =>
    if isWS c then
      if prevWS then collapseWSGo true cs else ' ' :: collapseWSGo true cs
    else c :: collapseWSGo false cs

def collapseWS (l : List Char) : List Char :=
  collapseWSGo false l

/-- `.trim()` restricted to the modelled whitespace characters. -/
def trimWS (l : List Char) : List Char :=
  ((l.dropWhile isWS).reverse.dropWhile isWS).reverse

/-- Brand names stripped by the sanitizer. -/
def BRAND_WORDS : List String :=
  ["ssense", "zara", "aesop", "apple", "nike", "gucci", "prada", "chanel",
   "dior", "balenciaga", "celine"]

/-- Technical-jargon words stripped by the sanitizer. -/
def JARGON_WORDS : List String :=
  ["8k", "4k", "hdr", "cinematic", "ultra", "hyper", "realistic",
   "photorealistic", "octane", "unreal", "render", "raytracing",
   "bokeh", "depth of field", "dslr", "canon", "nikon", "sony",
   "masterpiece", "best quality", "award winning", "trending",
   "artstation", "deviantart", "behance", "dribbble"]

/-- Hype words stripped by the sanitizer. -/
def HYPE_WORDS : List String :=
  ["luxury", "luxurious", "premium", "exclusive", "aesthetic",
   "vibe", "vibes", "vibez", "fire", "lit", "slay", "iconic",
   "insane", "amazing", "gorgeous", "stunning", "breathtaking",
   "incredible", "unbelievable", "epic", "legendary", "goated"]

/-- `sanitizeInput`: strip URLs, emojis, brand names; collapse whitespace,
trim and lowercase; strip jargon and hype words; collapse again; cap at 200
characters.  ASCII lowering models `toLowerCase` on the inputs involved. -/
def sanitizeInput (input : String) : String :=
  let t1 := removeUrls input.toList
  let t2 := t1.filter (fun c => !(isEmojiChar c))
  let t3 := stripWords BRAND_WORDS t2
  let t4 := (trimWS (collapseWS t3)).map Char.toLower
  let t5 := stripWords JARGON_WORDS t4
  let t6 := stripWords HYPE_WORDS t5
  let t7 := trimWS (collapseWS t6)
  String.mk (t7.take 200)

-- ══════════════ Keyword dictionaries ══════════════

def TEMPERATURE_KEYWORDS : List (String × List String) :=
  [("warm",
    ["warm", "golden", "amber", "sunset", "autumn", "cozy", "terracotta",
     "honey", "rustic", "copper", "earth", "earthy", "sun", "clay",
     "orange", "yellow", "candlelight", "firelight", "spice", "sahara"]),
   ("cool",
    ["cool", "cold", "ice", "winter", "blue", "silver", "moonlight",
     "frost", "arctic", "steel", "slate", "ocean", "marine", "teal",
     "glacier", "crisp", "fresh", "mint", "lavender", "twilight"]),
   ("neutral",
    ["neutral", "balanced", "clean", "white", "gray", "grey", "minimal",
     "pure", "simple", "clear", "monochrome", "matte"])]

def ENERGY_KEYWORDS : List (String × List String) :=
  [("calm",
    ["calm", "serene", "quiet", "peaceful", "zen", "still", "gentle",
     "soft", "subtle", "muted", "whisper", "tranquil", "restful",
     "meditative", "hushed", "tender", "delicate"]),
   ("vibrant",
    ["vibrant", "bold", "energetic", "dynamic", "bright", "punchy",
     "saturated", "intense", "electric", "vivid", "loud", "striking",
     "powerful", "fierce", "dramatic", "strong"]),
   ("moderate",
    ["moderate", "balanced", "natural", "organic", "grounded", "steady",
     "classic", "everyday", "approachable", "comfortable"])]

def MATERIAL_KEYWORDS : List (String × List String) :=
  [("marble", ["marble", "stone", "elegant", "refined", "polished", "veined"]),
   ("wood", ["wood", "wooden", "natural", "organic", "rustic", "earthy", "cabin", "oak", "walnut", "pine", "grain"]),
   ("concrete", ["concrete", "industrial", "urban", "brutalist", "raw", "loft", "cement", "grey"]),
   ("fabric", ["fabric", "linen", "textile", "soft", "draped", "silk", "cotton", "velvet", "woven", "cloth"]),
   ("metal", ["metal", "chrome", "steel", "futuristic", "modern", "tech", "aluminum", "brushed", "iron"]),
   ("ceramic", ["ceramic", "pottery", "artisan", "handmade", "clay", "terracotta", "glazed"])]

def LIGHT_QUALITY_KEYWORDS : List (String × List String) :=
  [("soft diffused", ["soft", "diffused", "gentle", "cloud", "overcast", "flat", "even", "ambient"]),
   ("golden hour", ["golden", "sunset", "sunrise", "warm glow", "amber light", "magic hour"]),
   ("directional", ["dramatic", "directional", "shadow", "contrast", "moody", "chiaroscuro", "sculpted", "angular"]),
   ("bright even", ["bright", "clean", "even", "daylight", "clear", "crisp light", "studio"])]

-- ══════════════ Classification ══════════════

/-- The match test of `classifyByKeywords` / `classifyLightQuality`:
`w.includes(k) || k.includes(w)`. -/
def bothDirMatch (w k : String) : Bool :=
  strContains w k || strContains k w

/-- The match test of `classifyMaterial`: `w.includes(k)` only. -/
def oneDirMatch (w k : String) : Bool :=
  strContains w k

/-- Number of tokens matching some keyword of a category. -/
def keywordScore (words : List String) (m : String → String → Bool) (keys : List String) : Nat :=
  (words.filter (fun w => keys.any (fun k => m w k))).length

/-- The shared best-match loop: start from the fallback with score 0, replace
the current best whenever a category scores strictly higher. -/
def classifyFold (words : List String) (m : String → String → Bool) :
    List (String × List String) → String → Nat → String
  | [], best, _ => best
  | (cat, keys) :: rest, best, bestScore =>
    let score := keywordScore words m keys
    if score > bestScore then classifyFold words m rest cat score
    else classifyFold words m rest best bestScore

/-- `classifyByKeywords(words, dictionary, fallback)` (two-directional match). -/
def classifyByKeywords (words : List String) (dictionary : List (String × List String))
    (fallback : String) : String :=
  classifyFold words bothDirMatch dictionary fallback 0

/-- `classifyMaterial(words)` (one-directional match, fallback `'none'`). -/
def classifyMaterial (words : List String) : String :=
  classifyFold words oneDirMatch MATERIAL_KEYWORDS "none" 0

/-- `classifyLightQuality(words)` (two-directional match, fallback `'soft diffused'`). -/
def classifyLightQuality (words : List String) : String :=
  classifyFold words bothDirMatch LIGHT_QUALITY_KEYWORDS "soft diffused" 0

-- ══════════════ Data model ══════════════

inductive SceneType where
  | studio
  | lifestyle
  | editorial
  deriving DecidableEq, Repr

structure MoodInterpretation where
  temperature : String
  energy : String
  materialBias : String
  lightQuality : String
  rawInput : String
  wasOverridden : Bool
  overrideNotes : List String
  deriving DecidableEq, Repr

-- ══════════════ Resolver (InterpretationEngine.interpretMood) ══════════════

/-- `getDefaultInterpretation`: scene-aware defaults used when the sanitized
mood text is empty or a single character. -/
def getDefaultInterpretation (rawInput : String) (selectedScenes : List SceneType) :
    MoodInterpretation :=
  let hasEditorial := selectedScenes.contains SceneType.editorial
  let hasStudio := selectedScenes.contains SceneType.studio
  { temperature := "neutral"
    energy := "calm"
    materialBias := if hasEditorial then "concrete" else "none"
    lightQuality :=
      if hasEditorial then "directional"
      else if hasStudio then "bright even"
      else "soft diffused"
    rawInput := rawInput
    wasOverridden := false
    overrideNotes := [] }

/-- Mutable resolver state of `interpretMood` (the four dimensions plus the
override bookkeeping). -/
structure ResolveState where
  temperature : String
  energy : String
  materialBias : String
  lightQuality : String
  wasOverridden : Bool
  overrideNotes : List String
  deriving DecidableEq, Repr

def ruleStudioTemperature (studioOnly : Bool) (st : ResolveState) : ResolveState :=
  if studioOnly = true ∧ st.temperature ≠ "neutral" then
    { st with temperature := "neutral"
              overrideNotes := st.overrideNotes ++
                ["Studio: temperature \"" ++ st.temperature ++ "\" → \"neutral\""]
              wasOverridden := true }
  else st

def ruleStudioEnergy (studioOnly : Bool) (st : ResolveState) : ResolveState :=
  if studioOnly = true ∧ st.energy = "vibrant" then
    { st with energy := "moderate"
              overrideNotes := st.overrideNotes ++
                ["Studio: energy \"vibrant\" → \"moderate\""]
              wasOverridden := true }
  else st

def ruleStudioMaterial (studioOnly : Bool) (st : ResolveState) : ResolveState :=
  if studioOnly = true ∧ st.materialBias ≠ "none" then
    { st with materialBias := "none"
              overrideNotes := st.overrideNotes ++
                ["Studio: material \"" ++ st.materialBias ++ "\" removed (no props)"]
              wasOverridden := true }
  else st

def ruleStudioLight (studioOnly : Bool) (st : ResolveState) : ResolveState :=
  if studioOnly = true ∧ st.lightQuality ≠ "soft diffused" ∧ st.lightQuality ≠ "bright even" then
    { st with lightQuality := "bright even"
              overrideNotes := st.overrideNotes ++
                ["Studio: light \"" ++ st.lightQuality ++ "\" → \"bright even\""]
              wasOverridden := true }
  else st

def ruleLifestyleLight (hasLifestyle : Bool) (st : ResolveState) : ResolveState :=
  if hasLifestyle = true ∧ st.lightQuality = "directional" then
    { st with lightQuality := "soft diffused"
              overrideNotes := st.overrideNotes ++
                ["Lifestyle: directional light → \"soft diffused\""]
              wasOverridden := true }
  else st

/-- Editorial preference and default fill: changes values but records no
override and leaves `wasOverridden` alone. -/
def ruleEditorial (hasEditorial : Bool) (st : ResolveState) : ResolveState :=
  let st1 :=
    if hasEditorial = true ∧ st.lightQuality = "bright even" then
      { st with lightQuality := "directional" }
    else st
  if hasEditorial = true ∧ st1.materialBias = "none" then
    { st1 with materialBias := "concrete" }
  else st1

/-- Step 3 of `interpretMood`: conflict resolution in source order. -/
def resolveConflicts (selectedScenes : List SceneType) (st : ResolveState) : ResolveState :=
  let studioOnly := selectedScenes.contains SceneType.studio && selectedScenes.length == 1
  let hasLifestyle := selectedScenes.contains SceneType.lifestyle
  let hasEditorial := selectedScenes.contains SceneType.editorial
  ruleEditorial hasEditorial
    (ruleLifestyleLight hasLifestyle
      (ruleStudioLight studioOnly
        (ruleStudioMaterial studioOnly
          (ruleStudioEnergy studioOnly
            (ruleStudioTemperature studioOnly st)))))

/-- `isSep` for `split(/[\s,]+/)`. -/
def isSepChar (c : Char) : Bool :=
  isWS c || c == ','

/-- Split into maximal runs of non-separator characters, accumulating the
current (reversed) run. -/
def splitTokensGo (acc : List Char) : List Char → List (List Char)
  | [] =>
    match acc with
    | [] => []
    | _ => [acc.reverse]
  | c :: cs =>
    if isSepChar c then
      match acc with
      | [] => splitTokensGo [] cs
      | _ => acc.reverse :: splitTokensGo [] cs
    else splitTokensGo (c :: acc) cs

def splitTokens (l : List Char) : List (List Char) :=
  splitTokensGo [] l

/-- `sanitized.split(/[\s,]+/).filter(w => w.length > 1)`. -/
def tokenizeWords (s : String) : List String :=
  ((splitTokens s.toList).map String.mk).filter (fun w => w.length > 1)

/-- `interpretMood(rawInput, selectedScenes)`. -/
def interpretMood (rawInput : String) (selectedScenes : List SceneType) : MoodInterpretation :=
  let sanitized := sanitizeInput rawInput
  if sanitized.length < 2 then getDefaultInterpretation rawInput selectedScenes
  else
    let words := tokenizeWords sanitized
    let st0 : ResolveState :=
      { temperature := classifyByKeywords words TEMPERATURE_KEYWORDS "neutral"
        energy := classifyByKeywords words ENERGY_KEYWORDS "moderate"
        materialBias := classifyMaterial words
        lightQuality := classifyLightQuality words
        wasOverridden := false
        overrideNotes := [] }
    let st := resolveConflicts selectedScenes st0
    { temperature := st.temperature
      energy := st.energy
      materialBias := st.materialBias
      lightQuality := st.lightQuality
      rawInput := rawInput
      wasOverridden := st.wasOverridden
      overrideNotes := st.overrideNotes }

-- ══════════════ Scene generation service (part_013) ══════════════

structure PromptPair where
  positive : String
  negative : String
  deriving DecidableEq, Repr

/-- `buildMoodModifier`: subtle temperature/energy clauses only. -/
def buildMoodModifier (interp : MoodInterpretation) : String :=
  let mods : List String :=
    (if interp.temperature = "warm" then ["very slightly warm color temperature"]
     else if interp.temperature = "cool" then ["very slightly cool color temperature"]
     else []) ++
    (if interp.energy = "calm" then ["muted, restrained tonal palette"]
     else if interp.energy = "vibrant" then ["slightly richer color saturation, maintaining realism"]
     else [])
  if mods.length > 0 then String.intercalate ", " mods else ""

/-- The `materialMap` lookup with the `|| ''` default. -/
def materialMapLookup (m : String) : String :=
  if m = "marble" then "polished marble or stone surface"
  else if m = "wood" then "natural light wood surface"
  else if m = "concrete" then "matte concrete surface"
  else if m = "fabric" then "clean linen or cotton textile surface"
  else if m = "metal" then "brushed metal surface"
  else if m = "ceramic" then "ceramic surface"
  else ""

/-- `buildMaterialHint`: empty for studio, empty for `'none'`, else the map hit. -/
def buildMaterialHint (interp : MoodInterpretation) (sceneType : SceneType) : String :=
  if sceneType = SceneType.studio then ""
  else if interp.materialBias = "none" then ""
  else materialMapLookup interp.materialBias

/-- `[ ... ].filter(Boolean).join('. ') + '.'` for the positive prompt parts. -/
def joinPositive (parts : List String) : String :=
  String.intercalate ". " (parts.filter (fun p => p ≠ "")) ++ "."

def buildStudioPrompt (product : String) (interp : MoodInterpretation) : PromptPair :=
  let moodMod := buildMoodModifier interp
  { positive := joinPositive
      ["Professional commercial product photography of " ++ product,
       "shot in a professional photography studio",
       "neutral off-white seamless paper background with very subtle warm grey tone",
       "soft diffused studio lighting from two large softboxes at 45-degree angles",
       "gentle fill light from below to reduce harsh shadows",
       "physically realistic soft shadows on the background surface",
       "accurate material rendering with true-to-life surface textures",
       "neutral color science, no color cast",
       "product centered in frame filling approximately 60-65% of the composition",
       "straight-on camera angle with very slight 10-degree overhead elevation",
       "sharp focus throughout the entire product with high depth of field",
       "shot on medium format digital camera, f/8-f/11 aperture",
       "high-end e-commerce catalog quality, ready for product page",
       "completely realistic, no AI artifacts, no synthetic appearance",
       moodMod]
    negative := String.intercalate ", "
      ["props", "decoration", "surface texture", "table", "shelf", "floor visible",
       "environment", "room", "interior", "lifestyle elements", "context objects",
       "hands", "people", "faces", "bodies", "fingers", "human presence",
       "text", "watermark", "logo", "branding", "label overlay", "typography",
       "distorted product", "hallucinated features", "wrong proportions", "multiple products",
       "blurry", "soft focus", "motion blur", "out of focus areas",
       "low quality", "low resolution", "jpeg artifacts", "noise", "grain",
       "illustration", "painting", "drawing", "cartoon", "anime", "sketch",
       "dramatic lighting", "rim light", "spotlight", "harsh shadows", "deep shadows",
       "lens flare", "god rays", "light leaks", "bokeh", "chromatic aberration",
       "cinematic", "film grain", "color grading", "split toning", "cross processing",
       "neon", "gradients", "color splash", "HDR effect", "over-saturated",
       "hyperreal", "glossy", "plastic appearance", "synthetic look", "AI artifacts",
       "vignette", "fisheye", "wide angle distortion", "tilt shift",
       "reflections of studio equipment", "visible light source"] }

def buildLifestylePrompt (product : String) (interp : MoodInterpretation) : PromptPair :=
  let moodMod := buildMoodModifier interp
  let materialHint := buildMaterialHint interp SceneType.lifestyle
  let surface := if materialHint ≠ "" then materialHint else "clean natural light wood or white surface"
  { positive := joinPositive
      ["Lifestyle product photography of " ++ product,
       "placed naturally in a realistic minimal interior setting",
       "product resting on " ++ surface,
       "uncluttered calm environment with only 1-2 very subtle contextual elements",
       "soft natural daylight from a window source, ambient fill",
       "no direct sunlight or harsh beams",
       "physically accurate shadows, soft and natural",
       "neutral to warm natural color palette",
       "product is the clear primary focal point in the composition",
       "off-center product placement with breathing room and negative space",
       "shallow but controlled depth of field, product entirely sharp",
       "background gently out of focus but recognizably real",
       "environment feels lived-in but deliberately styled",
       "shot on full-frame camera, natural perspective",
       "high-end brand lifestyle photography quality",
       "completely realistic, no AI artifacts",
       moodMod]
    negative := String.intercalate ", "
      ["people", "faces", "hands", "bodies", "fashion posing", "human presence",
       "cluttered background", "busy interior", "decorative overload", "maximalist",
       "too many props", "obvious staging", "fake plants", "stock photo feel",
       "text", "watermark", "logo", "brand name", "label", "typography",
       "distorted product", "hallucinated features", "multiple copies", "wrong scale",
       "illustration", "painting", "cartoon", "synthetic look", "AI appearance",
       "dramatic shadows", "cinematic flares", "surreal effects", "HDR",
       "over-saturated colors", "neon lighting", "colored lighting gels",
       "lens flare", "god rays", "bokeh balls", "light leaks",
       "heavy color grading", "film emulation", "cross processing",
       "hyperreal textures", "plastic surfaces", "artificial gloss",
       "studio lighting visible", "flash photography", "harsh direct light",
       "blurry product", "motion blur", "low quality", "jpeg artifacts"] }

def buildEditorialPrompt (product : String) (interp : MoodInterpretation) : PromptPair :=
  let moodMod := buildMoodModifier interp
  let materialHint := buildMaterialHint interp SceneType.editorial
  let backdrop :=
    if materialHint ≠ "" then "architectural " ++ materialHint ++ " backdrop"
    else "sculptural matte concrete or natural stone architectural backdrop"
  { positive := joinPositive
      ["Editorial product photography of " ++ product,
       backdrop ++ " with considered spatial composition",
       "intentional directional lighting from a single controlled source",
       "physically plausible shadows with clear directionality",
       "shadow edges are soft-medium, never harsh or razor-sharp",
       "restrained neutral color palette with quiet visual authority",
       "asymmetric composition with generous negative space",
       "product positioned as a sculptural focal object within the frame",
       "architectural sense of scale and environment",
       "no commercial gloss, no trend-driven styling, no decoration",
       "disciplined visual language, every element has purpose",
       "shot on medium format camera with professional lens",
       "art-directed campaign-grade photography",
       "completely realistic, absolutely no AI artifacts",
       moodMod]
    negative := String.intercalate ", "
      ["people", "faces", "hands", "bodies", "human presence",
       "cluttered", "busy background", "visual noise", "over-stylized", "maximalist",
       "text", "watermark", "logo", "brand name", "typography overlay",
       "distorted product", "hallucinated features", "multiple products", "wrong proportions",
       "flat lighting", "even lighting", "no shadows", "shadowless",
       "snapshot quality", "amateur photography", "phone camera",
       "commercial gloss", "product catalog feel", "stock photo",
       "illustration", "painting", "cartoon", "digital art", "AI appearance",
       "cinematic flare", "lens flare", "god rays", "light leaks",
       "neon", "gradients", "color splash", "trendy aesthetic",
       "surrealism", "fantasy", "sci-fi", "futuristic",
       "heavy color grading", "cross processing", "film emulation",
       "hyperreal", "plastic surfaces", "artificial shine",
       "bokeh", "tilt shift", "fisheye", "wide angle distortion",
       "blurry", "low quality", "jpeg artifacts", "noise"] }

/-- `PROMPT_BUILDERS` dispatch record. -/
def PROMPT_BUILDERS (s : SceneType) : String → MoodInterpretation → PromptPair :=
  match s with
  | SceneType.studio => buildStudioPrompt
  | SceneType.lifestyle => buildLifestylePrompt
  | SceneType.editorial => buildEditorialPrompt

/-- `buildConsistencyPrefix()`: the fixed multi-scene consistency directive
(three sentences joined by spaces, plus a trailing space). -/
def buildConsistencyLead : String :=
  String.intercalate " "
    ["MULTI-SCENE CONSISTENCY: This is part of a multi-scene product shoot.",
     "Product must appear identical across all scenes: same proportions, same materials, same colors.",
     "Maintain consistent product scale and detail rendering."] ++ " "

-- ══════════════ Quality validation ══════════════

/-- `QUALITY_THRESHOLD = 30`: minimum-usable score below which the next model
variant is tried. -/
def QUALITY_THRESHOLD : Nat := 30

/-- `MAX_RETRIES = 2`: generation attempts per scene per model. -/
def MAX_RETRIES : Nat := 2

/-- The characters of the literal `"data:image/"`. -/
def dataUrlHead : List Char := "data:image/".toList

/-- `base64.replace(/^data:image\/\w+;base64,/, '')`: drop the data-URL header
when it matches in full, else leave the string unchanged. -/
def stripBase64Head (s : String) : List Char :=
  let cs := s.toList
  if dataUrlHead.isPrefixOf cs then
    let rest := cs.drop dataUrlHead.length
    let mime := rest.takeWhile isWordChar
    let rest2 := rest.drop mime.length
    if mime ≠ [] ∧ ";base64,".toList.isPrefixOf rest2 then rest2.drop ";base64,".length
    else cs
  else cs

/-- `Math.round(num / den)` for non-negative operands (round half up). -/
def jsRound (num den : Nat) : Nat :=
  (2 * num + den) / (2 * den)

/-- `validateImageQuality(base64)`: size-and-format heuristic returning
`(score, reason)`. -/
def validateImageQuality (base64 : String) : Nat × String :=
  let rawData := stripBase64Head base64
  let sizeKB := jsRound (rawData.length * 3) (4 * 1024)
  if sizeKB < 5 then (0, "Image too small (likely failed generation)")
  else if sizeKB < 15 then (20, "Image suspiciously small")
  else if !(dataUrlHead.isPrefixOf base64.toList) then (0, "Invalid image data format")
  else (max 40 (min 100 (jsRound sizeKB 5)), "OK")

-- ══════════════ Gemini model cascade ══════════════

/-- Outcome of one `ai.models.generateContent` attempt, as the orchestrator
observes it: either a thrown error, or the image payloads (data URLs) found in
the response parts (possibly none). -/
inductive AttemptResult where
  | error (msg : String)
  | images (payloads : List String)
  deriving Repr

/-- Result of scanning one attempt's image parts: an immediate acceptance
(score ≥ 60) or the updated best candidate and score. -/
inductive PartScan where
  | accepted (img : String)
  | cont (best : Option String) (bestScore : Int)
  deriving Repr

/-- The inner parts loop of `generateSceneWithGemini`: score each payload,
track the best, return immediately on a score of at least 60. -/
def scanParts : List String → Option String → Int → PartScan
  | [], best, bestScore => PartScan.cont best bestScore
  | p :: ps, best, bestScore =>
    let quality := validateImageQuality p
    let best' := if (quality.1 : Int) > bestScore then some p else best
    let bestScore' := if (quality.1 : Int) > bestScore then (quality.1 : Int) else bestScore
    if quality.1 ≥ 60 then PartScan.accepted p
    else scanParts ps best' bestScore'

/-- The per-model attempt loop: up to `MAX_RETRIES` attempts, early return on
acceptance, break on a thrown error (keeping the best candidate so far), and
`lastError` updated when an attempt leaves no image. -/
def tryAttempts (g : Nat → AttemptResult) (modelName : String) :
    List Nat → Option String → Int → Option String →
    Sum String (Option String × Int × Option String)
  | [], best, bestScore, lastErr => Sum.inr (best, bestScore, lastErr)
  | a :: rest, best, bestScore, lastErr =>
    match g a with
    | AttemptResult.error msg => Sum.inr (best, bestScore, some msg)
    | AttemptResult.images ps =>
      match scanParts ps best bestScore with
      | PartScan.accepted img => Sum.inl img
      | PartScan.cont best' bestScore' =>
        let lastErr' :=
          if best' = none then some (modelName ++ " returned no image in response")
          else lastErr
        tryAttempts g modelName rest best' bestScore' lastErr'

/-- The primary-provider model cascade, best quality first. -/
def modelsToTry : List String :=
  ["gemini-3-pro-image-preview", "gemini-2.5-flash-image", "gemini-2.0-flash-exp"]

/-- The outer model loop of `generateSceneWithGemini`: accept the retained
best candidate when its score reaches `QUALITY_THRESHOLD`, otherwise advance
to the next model variant. -/
def runModels (g : Nat → Nat → AttemptResult) :
    List (Nat × String) → Option String → Except String String
  | [], lastErr => Except.error (lastErr.getD "Gemini did not return an acceptable image")
  | (mi, modelName) :: rest, lastErr =>
    match tryAttempts (g mi) modelName (List.range MAX_RETRIES) none (-1) lastErr with
    | Sum.inl img => Except.ok img
    | Sum.inr (best, bestScore, lastErr') =>
      match best with
      | some img =>
        if bestScore ≥ (QUALITY_THRESHOLD : Int) then Except.ok img
        else runModels g rest
          (some (modelName ++ " output quality too low (score: " ++ toString bestScore ++ ")"))
      | none => runModels g rest lastErr'

/-- `generateSceneWithGemini`, abstracted over an attempt oracle
`g modelIndex attemptIndex` standing for the provider's response. -/
def generateSceneWithGemini (g : Nat → Nat → AttemptResult) : Except String String :=
  runModels g modelsToTry.enum none

-- ══════════════ Batch orchestrator ══════════════

structure ProductInputData where
  imageBase64 : String
  additionalImages : List String
  productName : String
  deriving Repr

structure BusinessContextData where
  businessName : String
  businessDescription : String
  targetAudience : String
  productPurpose : String
  brandTone : String
  deriving Repr

structure BrandContextData where
  colorPalette : List String
  deriving Repr

structure SceneGenerationRequest where
  product : ProductInputData
  scenes : List SceneType
  moodText : String
  interpretation : MoodInterpretation
  businessContext : Option BusinessContextData
  brandContext : Option BrandContextData
  deriving Repr

structure GeneratedScene where
  sceneType : SceneType
  imageBase64 : String
  promptUsed : String
  generatedAt : Nat
  provider : String
  deriving DecidableEq, Repr

/-- The string value of a `SceneType` (the TS union is a string type). -/
def sceneTypeName : SceneType → String
  | SceneType.studio => "studio"
  | SceneType.lifestyle => "lifestyle"
  | SceneType.editorial => "editorial"

/-- The truthy `businessContext` fields, in source order. -/
def businessContextParts (bc : BusinessContextData) : List String :=
  (if bc.businessName ≠ "" then ["Brand: " ++ bc.businessName] else []) ++
  (if bc.businessDescription ≠ "" then ["About: " ++ bc.businessDescription] else []) ++
  (if bc.brandTone ≠ "" then ["Brand tone: " ++ bc.brandTone] else [])

/-- The per-scene positive prompt: consistency lead, locked builder output,
then the conditional business-context and palette suffixes. -/
def scenePromptPositive (req : SceneGenerationRequest) (lead : String) (sceneType : SceneType) :
    String :=
  let base := lead ++ (PROMPT_BUILDERS sceneType req.product.productName req.interpretation).positive
  let base2 :=
    match req.businessContext with
    | none => base
    | some bc =>
      let parts := businessContextParts bc
      if parts.length > 0 then
        base ++ "\n\nBRAND CONTEXT (use only as subtle tonal guidance — do NOT change lighting, composition, or scene structure): " ++
          String.intercalate ". " parts ++ "."
      else base
  match req.brandContext with
  | none => base2
  | some b =>
    if b.colorPalette.length > 0 then
      base2 ++ " Very subtle color palette influence: " ++
        String.intercalate ", " b.colorPalette ++ "."
    else base2

/-- The aggregated diagnostic thrown when both providers fail for a scene,
with the substring-based classification of the Gemini error. -/
def buildHelpText (sceneType : SceneType) (geminiMsg pollMsg : String) : String :=
  let base := "Failed to generate " ++ sceneTypeName sceneType ++ " scene.\n"
  if strContains geminiMsg "API key" || strContains geminiMsg "401" || strContains geminiMsg "403" then
    base ++ "Your Gemini API key may be invalid or lack image generation access. Ensure it supports Gemini 3 Pro Image or Gemini 2.5 Flash Image."
  else if strContains geminiMsg "quota" || strContains geminiMsg "429" then
    base ++ "Gemini rate limit reached. Wait a moment and try again."
  else
    base ++ "Gemini: " ++ geminiMsg ++ ". Pollinations: " ++ pollMsg

/-- The sequential scene loop of `generateScenes`.  `g i` is the Gemini
attempt oracle for scene `i`; `p i` the Pollinations outcome for scene `i`;
`now` stands for `Date.now()`. -/
def generateScenesAux (req : SceneGenerationRequest)
    (g : Nat → Nat → Nat → AttemptResult) (p : Nat → Except String String)
    (now : Nat) (lead : String) :
    Nat → List SceneType → Except String (List GeneratedScene)
  | _, [] => Except.ok []
  | i, sceneType :: rest =>
    let positive := scenePromptPositive req lead sceneType
    match generateSceneWithGemini (g i) with
    | Except.ok img =>
      match generateScenesAux req g p now lead (i + 1) rest with
      | Except.ok results =>
        Except.ok (⟨sceneType, img, positive, now, "gemini"⟩ :: results)
      | Except.error e => Except.error e
    | Except.error geminiMsg =>
      match p i with
      | Except.ok img =>
        match generateScenesAux req g p now lead (i + 1) rest with
        | Except.ok results =>
          Except.ok (⟨sceneType, img, positive, now, "pollinations"⟩ :: results)
        | Except.error e => Except.error e
      | Except.error pollMsg => Except.error (buildHelpText sceneType geminiMsg pollMsg)

/-- `generateScenes(request, apiKey, onProgress)`: one result per requested
scene in request order, or a single error for the whole batch.  The progress
callback and the API key have no observable effect in the pure model. -/
def generateScenes (req : SceneGenerationRequest)
    (g : Nat → Nat → Nat → AttemptResult) (p : Nat → Except String String)
    (now : Nat) : Except String (List GeneratedScene) :=
  let lead := if req.scenes.length > 1 then buildConsistencyLead else ""
  generateScenesAux req g p now lead 0 req.scenes

-- ══════════════ Helper lemmas: data-URL payloads ══════════════

/-- A well-formed PNG data URL whose base64 body is `l`. -/
def mkDataUrl (l : List Char) : String :=
  String.mk ("data:image/png;base64,".toList ++ l)

theorem isPrefixOf_append_self (p rest : List Char) : p.isPrefixOf (p ++ rest) = true := by
  induction p with
  | nil => simp [List.isPrefixOf]
  | cons a as ih => simp [List.isPrefixOf, ih]

theorem dataUrlHead_isPrefixOf_mkDataUrl (l : List Char) :
    dataUrlHead.isPrefixOf (mkDataUrl l).toList = true := by
  have h : (mkDataUrl l).toList = dataUrlHead ++ ("png;base64,".toList ++ l) := by
    simp +decide [mkDataUrl, dataUrlHead, String.toList]
  rw [h]
  exact isPrefixOf_append_self _ _

theorem stripBase64Head_mkDataUrl (l : List Char) :
    stripBase64Head (mkDataUrl l) = l := by
  have h : (mkDataUrl l).toList = dataUrlHead ++ ("png;base64,".toList ++ l) := by
    simp +decide [mkDataUrl, dataUrlHead, String.toList]
  unfold stripBase64Head
  rw [h, if_pos]
  · simp only [List.drop_left]
    have htake : ("png;base64,".toList ++ l).takeWhile isWordChar = ['p', 'n', 'g'] := by
      simp +decide [String.toList, List.takeWhile_cons]
    rw [htake]
    have hdrop : List.drop (['p', 'n', 'g'] : List Char).length ("png;base64,".toList ++ l) =
        ";base64,".toList ++ l := by
      simp +decide [String.toList]
    rw [hdrop, if_pos, List.drop_left' (by simp +decide [String.toList, String.length])]
    exact ⟨by simp, isPrefixOf_append_self _ _⟩
  · rw [← h]
    exact dataUrlHead_isPrefixOf_mkDataUrl l

theorem length_toList_mkDataUrl (l : List Char) :
    (stripBase64Head (mkDataUrl l)).length = l.length := by
  rw [stripBase64Head_mkDataUrl]

/-- The score of a well-formed data-URL payload is determined by the base64
body length alone. -/
theorem validateImageQuality_mkDataUrl (l : List Char) :
    validateImageQuality (mkDataUrl l) =
      (if jsRound (l.length * 3) (4 * 1024) < 5 then
        (0, "Image too small (likely failed generation)")
       else if jsRound (l.length * 3) (4 * 1024) < 15 then
        (20, "Image suspiciously small")
       else
        (max 40 (min 100 (jsRound (jsRound (l.length * 3) (4 * 1024)) 5)), "OK")) := by
  unfold validateImageQuality
  rw [stripBase64Head_mkDataUrl, dataUrlHead_isPrefixOf_mkDataUrl]
  simp

-- ══════════════ Helper lemmas: classifier fold ══════════════

/-- Highest per-category score in a score table. -/
def maxScore (scores : List (String × Nat)) : Nat :=
  scores.foldr (fun p acc => max p.2 acc) 0

/-- The first category attaining the (positive) maximal score; the fallback
when every category scores zero. -/
def firstMaxCategory (scores : List (String × Nat)) (fb : String) : String :=
  if maxScore scores = 0 then fb
  else ((scores.find? (fun p => p.2 == maxScore scores)).map Prod.fst).getD fb

/-- The classifier loop, abstracted to a precomputed score table. -/
def runFold : List (String × Nat) → String → Nat → String
  | [], best, _ => best
  | (c, sc) :: rest, best, bestScore =>
    if sc > bestScore then runFold rest c sc
    else runFold rest best bestScore

theorem find?_isSome_of_maxScore_pos (scores : List (String × Nat))
    (h : 0 < maxScore scores) :
    (scores.find? (fun p => p.2 == maxScore scores)).isSome = true := by
  induction scores with
  | nil => simp [maxScore] at h
  | cons p rest ih =>
    by_cases hp : p.2 == maxScore (p :: rest)
    · simp [List.find?, hp]
    · have hmax : maxScore (p :: rest) = max p.2 (maxScore rest) := by simp [maxScore]
      have hne : p.2 ≠ maxScore (p :: rest) := by simpa using hp
      have hlt : p.2 < maxScore rest := by omega
      have hrest : maxScore (p :: rest) = maxScore rest := by omega
      rw [List.find?]
      simp only [hp]
      rw [hrest]
      exact ih (by omega)

theorem runFold_eq (scores : List (String × Nat)) :
    ∀ (best : String) (bestScore : Nat),
    runFold scores best bestScore =
      if maxScore scores ≤ bestScore then best
      else ((scores.find? (fun p => p.2 == maxScore scores)).map Prod.fst).getD best := by
  induction scores with
  | nil => intro best s; simp [runFold, maxScore]
  | cons p rest ih =>
    intro best s
    obtain ⟨c, sc⟩ := p
    have hmax : maxScore ((c, sc) :: rest) = max sc (maxScore rest) := by simp [maxScore]
    rw [runFold]
    by_cases hgt : sc > s
    · rw [if_pos hgt, ih]
      by_cases hr : maxScore rest ≤ sc
      · rw [if_pos hr, if_neg (by omega)]
        have hhead : (sc == maxScore ((c, sc) :: rest)) = true := by
          simp [hmax]; omega
        simp [List.find?, hhead]
      · rw [if_neg hr, if_neg (by omega)]
        have hrest : maxScore ((c, sc) :: rest) = maxScore rest := by rw [hmax]; omega
        have hhead : (sc == maxScore rest) = false := by simp; omega
        rw [List.find?, hrest]
        simp only [hhead]
        have hsome := find?_isSome_of_maxScore_pos rest (by omega)
        obtain ⟨q, hq⟩ := Option.isSome_iff_exists.mp hsome
        simp [hq]
    · rw [if_neg hgt, ih]
      by_cases hr : maxScore rest ≤ s
      · rw [if_pos hr, if_pos (by omega)]
      · rw [if_neg hr, if_neg (by omega)]
        have hrest : maxScore ((c, sc) :: rest) = maxScore rest := by rw [hmax]; omega
        have hhead : (sc == maxScore rest) = false := by simp; omega
        rw [List.find?, hrest]
        simp only [hhead]

/-- Score table of a dictionary for a given word list and match test. -/
def scoreTable (words : List String) (m : String → String → Bool)
    (dict : List (String × List String)) : List (String × Nat) :=
  dict.map (fun p => (p.1, keywordScore words m p.2))

theorem classifyFold_eq_runFold (words : List String) (m : String → String → Bool)
    (dict : List (String × List String)) :
    ∀ (best : String) (bestScore : Nat),
    classifyFold words m dict best bestScore =
      runFold (scoreTable words m dict) best bestScore := by
  induction dict with
  | nil => intro best s; simp [classifyFold, scoreTable, runFold]
  | cons p rest ih =>
    intro best s
    obtain ⟨c, ks⟩ := p
    rw [classifyFold, scoreTable]
    simp only [List.map_cons]
    rw [runFold]
    by_cases h : keywordScore words m ks > s
    · rw [if_pos h, if_pos h, ih, scoreTable]
    · rw [if_neg h, if_neg h, ih, scoreTable]

/-- Any run of the classifier loop from the fallback equals: the fallback when
every score is zero, else the first category attaining the maximal score. -/
theorem classifyFold_eq_firstMax (words : List String) (m : String → String → Bool)
    (dict : List (String × List String)) (fb : String) :
    classifyFold words m dict fb 0 = firstMaxCategory (scoreTable words m dict) fb := by
  rw [classifyFold_eq_runFold, runFold_eq, firstMaxCategory]
  by_cases h : maxScore (scoreTable words m dict) = 0
  · rw [if_pos (by omega), if_pos h]
  · rw [if_neg (by omega), if_neg h]

-- ══════════════ Helper lemmas: cascade ══════════════

/-- The tracked best score is the score of the tracked best image. -/
def scoreInv (b : Option String) (s : Int) : Prop :=
  ∀ x, b = some x → ((validateImageQuality x).1 : Int) = s

theorem scanParts_spec (ps : List String) :
    ∀ (b : Option String) (s : Int), scoreInv b s →
    (∃ img, scanParts ps b s = PartScan.accepted img ∧ 60 ≤ (validateImageQuality img).1) ∨
    (∃ b' s', scanParts ps b s = PartScan.cont b' s' ∧ s ≤ s' ∧ scoreInv b' s' ∧
      (b.isSome = true → b'.isSome = true)) := by
  induction ps with
  | nil =>
    intro b s h
    right
    exact ⟨b, s, rfl, le_refl _, h, fun hb => hb⟩
  | cons p ps ih =>
    intro b s h
    by_cases h60 : (validateImageQuality p).1 ≥ 60
    · left
      refine ⟨p, ?_, h60⟩
      rw [scanParts]
      simp only [h60, if_true]
    · rw [scanParts]
      simp only [h60, if_false]
      by_cases hup : ((validateImageQuality p).1 : Int) > s
      · simp only [hup, if_true]
        have hinv : scoreInv (some p) ((validateImageQuality p).1 : Int) := by
          intro x hx
          cases hx
          rfl
        rcases ih (some p) _ hinv with ⟨img, heq, hsc⟩ | ⟨b', s', heq, hle, hinv', hsome⟩
        · exact Or.inl ⟨img, heq, hsc⟩
        · exact Or.inr ⟨b', s', heq, le_trans (le_of_lt hup) hle, hinv',
            fun _ => hsome (by simp)⟩
      · simp only [hup, if_false]
        rcases ih b s h with ⟨img, heq, hsc⟩ | ⟨b', s', heq, hle, hinv', hsome⟩
        · exact Or.inl ⟨img, heq, hsc⟩
        · exact Or.inr ⟨b', s', heq, hle, hinv', hsome⟩

theorem tryAttempts_spec (g : Nat → AttemptResult) (modelName : String) (as : List Nat) :
    ∀ (b : Option String) (s : Int) (le : Option String), scoreInv b s →
    (∃ img, tryAttempts g modelName as b s le = Sum.inl img ∧
      60 ≤ (validateImageQuality img).1) ∨
    (∃ b' s' le', tryAttempts g modelName as b s le = Sum.inr (b', s', le') ∧
      s ≤ s' ∧ scoreInv b' s' ∧ (b.isSome = true → b'.isSome = true)) := by
  induction as with
  | nil =>
    intro b s le h
    right
    exact ⟨b, s, le, rfl, le_refl _, h, fun hb => hb⟩
  | cons a rest ih =>
    intro b s le h
    rw [tryAttempts]
    cases hg : g a with
    | error msg =>
      right
      exact ⟨b, s, some msg, rfl, le_refl _, h, fun hb => hb⟩
    | images ps =>
      dsimp only
      rcases scanParts_spec ps b s h with ⟨img, heq, hsc⟩ | ⟨b', s', heq, hle, hinv', hsome⟩
      · rw [heq]
        exact Or.inl ⟨img, rfl, hsc⟩
      · rw [heq]
        rcases ih b' s' _ hinv' with ⟨img, heq2, hsc2⟩ | ⟨b'', s'', le'', heq2, hle2, hinv2, hsome2⟩
        · exact Or.inl ⟨img, heq2, hsc2⟩
        · exact Or.inr ⟨b'', s'', le'', heq2, le_trans hle hle2, hinv2,
            fun hb => hsome2 (hsome hb)⟩

theorem scanParts_accepted (p : String) (ps : List String) (b : Option String) (s : Int)
    (h60 : 60 ≤ (validateImageQuality p).1) :
    scanParts (p :: ps) b s = PartScan.accepted p := by
  rw [scanParts]
  rw [if_pos h60]

theorem scanParts_single_low (p : String) (b : Option String) (s : Int)
    (hup : s < ((validateImageQuality p).1 : Int))
    (h60 : (validateImageQuality p).1 < 60) :
    scanParts [p] b s = PartScan.cont (some p) ((validateImageQuality p).1 : Int) := by
  rw [scanParts]
  rw [if_neg (by omega), if_pos hup, if_pos hup, scanParts]

theorem scanParts_single_keep (p : String) (b : Option String) (s : Int)
    (hle : ((validateImageQuality p).1 : Int) ≤ s)
    (h60 : (validateImageQuality p).1 < 60) :
    scanParts [p] b s = PartScan.cont b s := by
  rw [scanParts]
  rw [if_neg (by omega), if_neg (by omega), if_neg (by omega), scanParts]

/-- The first entry of the model cascade with the remaining variants. -/
theorem modelsToTry_enum_eq :
    modelsToTry.enum = (0, "gemini-3-pro-image-preview") ::
      [(1, "gemini-2.5-flash-image"), (2, "gemini-2.0-flash-exp")] := rfl

theorem range_MAX_RETRIES : List.range MAX_RETRIES = [0, 1] := rfl

theorem gemini_of_try_inl (g : Nat → Nat → AttemptResult) (img : String)
    (htry : tryAttempts (g 0) "gemini-3-pro-image-preview" (List.range MAX_RETRIES)
      none (-1) none = Sum.inl img) :
    generateSceneWithGemini g = Except.ok img := by
  unfold generateSceneWithGemini
  rw [modelsToTry_enum_eq, runModels, htry]

theorem gemini_of_try_retained (g : Nat → Nat → AttemptResult) (img : String) (s : Int)
    (le' : Option String)
    (htry : tryAttempts (g 0) "gemini-3-pro-image-preview" (List.range MAX_RETRIES)
      none (-1) none = Sum.inr (some img, s, le'))
    (hs : (QUALITY_THRESHOLD : Int) ≤ s) :
    generateSceneWithGemini g = Except.ok img := by
  unfold generateSceneWithGemini
  rw [modelsToTry_enum_eq, runModels, htry]
  dsimp only
  rw [if_pos hs]

theorem cascade_accept_first (g : Nat → Nat → AttemptResult) (p : String) (ps : List String)
    (h00 : g 0 0 = AttemptResult.images (p :: ps))
    (h60 : 60 ≤ (validateImageQuality p).1) :
    generateSceneWithGemini g = Except.ok p := by
  apply gemini_of_try_inl
  rw [range_MAX_RETRIES, tryAttempts, h00]
  dsimp only
  rw [scanParts_accepted p ps none (-1) h60]

theorem natCast_gt_neg_one (n : Nat) : (-1 : Int) < (n : Int) :=
  lt_of_lt_of_le (by norm_num) (Int.natCast_nonneg n)

theorem cascade_const_ok (P : String)
    (h30 : QUALITY_THRESHOLD ≤ (validateImageQuality P).1) :
    generateSceneWithGemini (fun _ _ => AttemptResult.images [P]) = Except.ok P := by
  by_cases h60 : 60 ≤ (validateImageQuality P).1
  · exact cascade_accept_first _ P [] rfl h60
  · push_neg at h60
    apply gemini_of_try_retained _ P ((validateImageQuality P).1 : Int) none
    · rw [range_MAX_RETRIES, tryAttempts]
      dsimp only
      rw [scanParts_single_low P none (-1) (natCast_gt_neg_one _) h60]
      dsimp only
      rw [if_neg (by simp), tryAttempts]
      dsimp only
      rw [scanParts_single_keep P (some P) _ (le_refl _) h60]
      dsimp only
      rw [if_neg (by simp), tryAttempts]
    · exact_mod_cast h30

theorem cascade_retained (g : Nat → Nat → AttemptResult) (p₁ p₂ : String)
    (h00 : g 0 0 = AttemptResult.images [p₁])
    (h01 : g 0 1 = AttemptResult.images [p₂])
    (h160 : (validateImageQuality p₁).1 < 60)
    (h2le : (validateImageQuality p₂).1 ≤ (validateImageQuality p₁).1) :
    tryAttempts (g 0) "gemini-3-pro-image-preview" (List.range MAX_RETRIES) none (-1) none =
      Sum.inr (some p₁, ((validateImageQuality p₁).1 : Int), none) := by
  rw [range_MAX_RETRIES, tryAttempts, h00]
  dsimp only
  rw [scanParts_single_low p₁ none (-1) (natCast_gt_neg_one _) h160]
  dsimp only
  rw [if_neg (by simp), tryAttempts, h01]
  dsimp only
  rw [scanParts_single_keep p₂ (some p₁) _ (by exact_mod_cast h2le) (by omega)]
  dsimp only
  rw [if_neg (by simp), tryAttempts]

theorem cascade_first_good (g : Nat → Nat → AttemptResult) (p : String) (ps : List String)
    (h00 : g 0 0 = AttemptResult.images (p :: ps))
    (h40 : 40 ≤ (validateImageQuality p).1) :
    (generateSceneWithGemini g).isOk = true := by
  by_cases h60 : 60 ≤ (validateImageQuality p).1
  · rw [cascade_accept_first g p ps h00 h60]
    rfl
  · push_neg at h60
    have hinv : scoreInv (some p) ((validateImageQuality p).1 : Int) := by
      intro x hx
      cases hx
      rfl
    have hhead : scanParts (p :: ps) none (-1) =
        scanParts ps (some p) ((validateImageQuality p).1 : Int) := by
      rw [scanParts]
      rw [if_neg (by omega), if_pos (natCast_gt_neg_one _), if_pos (natCast_gt_neg_one _)]
    rcases scanParts_spec ps (some p) _ hinv with ⟨img, heq, hsc⟩ | ⟨b', s', heq, hle, hinv', hsome⟩
    · rw [gemini_of_try_inl g img ?_]
      · rfl
      · rw [range_MAX_RETRIES, tryAttempts, h00]
        dsimp only
        rw [hhead, heq]
    · obtain ⟨img', hb'⟩ := Option.isSome_iff_exists.mp (hsome rfl)
      subst hb'
      have hs' : (40 : Int) ≤ s' := le_trans (by exact_mod_cast h40) hle
      have htry1 : ∀ lastE,
          tryAttempts (g 0) "gemini-3-pro-image-preview" [1] (some img') s' lastE =
            tryAttempts (g 0) "gemini-3-pro-image-preview" [1] (some img') s' lastE := fun _ => rfl
      -- attempt 1 case split
      cases hg1 : g 0 1 with
      | error msg =>
        rw [gemini_of_try_retained g img' s' (some msg) ?_
          (by have hQ : (QUALITY_THRESHOLD : Int) = 30 := rfl; omega)]
        · rfl
        · rw [range_MAX_RETRIES, tryAttempts, h00]
          dsimp only
          rw [hhead, heq]
          dsimp only
          rw [if_neg (by simp), tryAttempts, hg1]
      | images ps2 =>
        rcases scanParts_spec ps2 (some img') s' hinv' with ⟨img2, heq2, hsc2⟩ |
          ⟨b'', s'', heq2, hle2, hinv2, hsome2⟩
        · rw [gemini_of_try_inl g img2 ?_]
          · rfl
          · rw [range_MAX_RETRIES, tryAttempts, h00]
            dsimp only
            rw [hhead, heq]
            dsimp only
            rw [if_neg (by simp), tryAttempts, hg1]
            dsimp only
            rw [heq2]
        · obtain ⟨img2, hb2⟩ := Option.isSome_iff_exists.mp (hsome2 rfl)
          subst hb2
          rw [gemini_of_try_retained g img2 s''
            (if (some img2 : Option String) = none
              then some ("gemini-3-pro-image-preview" ++ " returned no image in response")
              else (if (some img' : Option String) = none
                then some ("gemini-3-pro-image-preview" ++ " returned no image in response")
                else none)) ?_
            (by have hQ : (QUALITY_THRESHOLD : Int) = 30 := rfl; omega)]
          · rfl
          · rw [range_MAX_RETRIES, tryAttempts, h00]
            dsimp only
            rw [hhead, heq]
            dsimp only
            rw [if_neg (by simp), tryAttempts, hg1]
            dsimp only
            rw [heq2]
            dsimp only
            rw [tryAttempts]

-- ══════════════ Helper lemmas: resolver ══════════════

theorem studioOnly_cases (scenes : List SceneType)
    (h : (scenes.contains SceneType.studio && scenes.length == 1) = true) :
    scenes = [SceneType.studio] := by
  cases scenes with
  | nil => simp at h
  | cons a rest =>
    cases rest with
    | nil =>
      simp at h
      rw [h]
    | cons b r => simp at h

theorem ruleEditorial_overrideNotes (he : Bool) (st : ResolveState) :
    (ruleEditorial he st).overrideNotes = st.overrideNotes := by
  unfold ruleEditorial
  split <;> (dsimp only; split <;> rfl)

theorem ruleEditorial_wasOverridden (he : Bool) (st : ResolveState) :
    (ruleEditorial he st).wasOverridden = st.wasOverridden := by
  unfold ruleEditorial
  split <;> (dsimp only; split <;> rfl)

/-- Number of "yes"-flagged override rules that fire for the given raw text
and scene selection, stated on the classifier outputs. -/
def firedYesRuleCount (raw : String) (scenes : List SceneType) : Nat :=
  let sanitized := sanitizeInput raw
  if sanitized.length < 2 then 0
  else
    let words := tokenizeWords sanitized
    let t := classifyByKeywords words TEMPERATURE_KEYWORDS "neutral"
    let e := classifyByKeywords words ENERGY_KEYWORDS "moderate"
    let m := classifyMaterial words
    let l := classifyLightQuality words
    let studioOnly := scenes.contains SceneType.studio && scenes.length == 1
    (if studioOnly = true ∧ t ≠ "neutral" then 1 else 0) +
    (if studioOnly = true ∧ e = "vibrant" then 1 else 0) +
    (if studioOnly = true ∧ m ≠ "none" then 1 else 0) +
    (if studioOnly = true ∧ l ≠ "soft diffused" ∧ l ≠ "bright even" then 1 else 0) +
    (if scenes.contains SceneType.lifestyle = true ∧ l = "directional" then 1 else 0)

theorem ruleStudioTemperature_spec (so : Bool) (st : ResolveState) :
    (ruleStudioTemperature so st).overrideNotes.length =
      st.overrideNotes.length + (if so = true ∧ st.temperature ≠ "neutral" then 1 else 0) ∧
    (ruleStudioTemperature so st).energy = st.energy ∧
    (ruleStudioTemperature so st).materialBias = st.materialBias ∧
    (ruleStudioTemperature so st).lightQuality = st.lightQuality ∧
    ((ruleStudioTemperature so st).wasOverridden = true ↔
      (st.wasOverridden = true ∨ (so = true ∧ st.temperature ≠ "neutral"))) ∧
    ((ruleStudioTemperature so st).overrideNotes = [] ↔
      (st.overrideNotes = [] ∧ ¬(so = true ∧ st.temperature ≠ "neutral"))) := by
  unfold ruleStudioTemperature
  split <;> simp_all

theorem ruleStudioEnergy_spec (so : Bool) (st : ResolveState) :
    (ruleStudioEnergy so st).overrideNotes.length =
      st.overrideNotes.length + (if so = true ∧ st.energy = "vibrant" then 1 else 0) ∧
    (ruleStudioEnergy so st).materialBias = st.materialBias ∧
    (ruleStudioEnergy so st).lightQuality = st.lightQuality ∧
    ((ruleStudioEnergy so st).wasOverridden = true ↔
      (st.wasOverridden = true ∨ (so = true ∧ st.energy = "vibrant"))) ∧
    ((ruleStudioEnergy so st).overrideNotes = [] ↔
      (st.overrideNotes = [] ∧ ¬(so = true ∧ st.energy = "vibrant"))) := by
  unfold ruleStudioEnergy
  split <;> simp_all

theorem ruleStudioMaterial_spec (so : Bool) (st : ResolveState) :
    (ruleStudioMaterial so st).overrideNotes.length =
      st.overrideNotes.length + (if so = true ∧ st.materialBias ≠ "none" then 1 else 0) ∧
    (ruleStudioMaterial so st).lightQuality = st.lightQuality ∧
    ((ruleStudioMaterial so st).wasOverridden = true ↔
      (st.wasOverridden = true ∨ (so = true ∧ st.materialBias ≠ "none"))) ∧
    ((ruleStudioMaterial so st).overrideNotes = [] ↔
      (st.overrideNotes = [] ∧ ¬(so = true ∧ st.materialBias ≠ "none"))) := by
  unfold ruleStudioMaterial
  split <;> simp_all

theorem ruleStudioLight_spec (so : Bool) (st : ResolveState) :
    (ruleStudioLight so st).overrideNotes.length =
      st.overrideNotes.length +
        (if so = true ∧ st.lightQuality ≠ "soft diffused" ∧ st.lightQuality ≠ "bright even"
         then 1 else 0) ∧
    (ruleStudioLight so st).lightQuality =
      (if so = true ∧ st.lightQuality ≠ "soft diffused" ∧ st.lightQuality ≠ "bright even"
       then "bright even" else st.lightQuality) ∧
    ((ruleStudioLight so st).wasOverridden = true ↔
      (st.wasOverridden = true ∨
        (so = true ∧ st.lightQuality ≠ "soft diffused" ∧ st.lightQuality ≠ "bright even"))) ∧
    ((ruleStudioLight so st).overrideNotes = [] ↔
      (st.overrideNotes = [] ∧
        ¬(so = true ∧ st.lightQuality ≠ "soft diffused" ∧ st.lightQuality ≠ "bright even"))) := by
  unfold ruleStudioLight
  split <;> simp_all

theorem ruleLifestyleLight_spec (hl : Bool) (st : ResolveState) :
    (ruleLifestyleLight hl st).overrideNotes.length =
      st.overrideNotes.length + (if hl = true ∧ st.lightQuality = "directional" then 1 else 0) ∧
    ((ruleLifestyleLight hl st).wasOverridden = true ↔
      (st.wasOverridden = true ∨ (hl = true ∧ st.lightQuality = "directional"))) ∧
    ((ruleLifestyleLight hl st).overrideNotes = [] ↔
      (st.overrideNotes = [] ∧ ¬(hl = true ∧ st.lightQuality = "directional"))) := by
  unfold ruleLifestyleLight
  split <;> simp_all

set_option maxHeartbeats 1000000 in
theorem resolveChain_spec (so hlf hed : Bool) (t e m l : String)
    (hexcl : so = true → hlf = false) :
    (ruleEditorial hed (ruleLifestyleLight hlf (ruleStudioLight so (ruleStudioMaterial so
        (ruleStudioEnergy so (ruleStudioTemperature so ⟨t, e, m, l, false, []⟩)))))).overrideNotes.length =
      ((if so = true ∧ t ≠ "neutral" then 1 else 0) +
       (if so = true ∧ e = "vibrant" then 1 else 0) +
       (if so = true ∧ m ≠ "none" then 1 else 0) +
       (if so = true ∧ l ≠ "soft diffused" ∧ l ≠ "bright even" then 1 else 0) +
       (if hlf = true ∧ l = "directional" then 1 else 0)) ∧
    ((ruleEditorial hed (ruleLifestyleLight hlf (ruleStudioLight so (ruleStudioMaterial so
        (ruleStudioEnergy so (ruleStudioTemperature so ⟨t, e, m, l, false, []⟩)))))).wasOverridden = true ↔
      (ruleEditorial hed (ruleLifestyleLight hlf (ruleStudioLight so (ruleStudioMaterial so
        (ruleStudioEnergy so (ruleStudioTemperature so ⟨t, e, m, l, false, []⟩)))))).overrideNotes ≠ []) := by
  rw [ruleEditorial_overrideNotes, ruleEditorial_wasOverridden]
  cases so with
  | false =>
    simp only [ruleStudioTemperature, ruleStudioEnergy, ruleStudioMaterial, ruleStudioLight,
      Bool.false_eq_true, false_and, if_false]
    by_cases hld : hlf = true ∧ l = "directional"
    · simp [ruleLifestyleLight, hld]
    · simp [ruleLifestyleLight, hld]
  | true =>
    have hlfF : hlf = false := hexcl rfl
    subst hlfF
    by_cases ht : t = "neutral" <;> by_cases he : e = "vibrant" <;> by_cases hm : m = "none" <;>
      by_cases hl : l ≠ "soft diffused" ∧ l ≠ "bright even" <;>
      simp_all [ruleStudioTemperature, ruleStudioEnergy, ruleStudioMaterial, ruleStudioLight,
        ruleLifestyleLight] <;>
      try (split <;> simp_all)

theorem resolveConflicts_spec (scenes : List SceneType) (t e m l : String) :
    (resolveConflicts scenes ⟨t, e, m, l, false, []⟩).overrideNotes.length =
      ((if (scenes.contains SceneType.studio && scenes.length == 1) = true ∧ t ≠ "neutral" then 1 else 0) +
       (if (scenes.contains SceneType.studio && scenes.length == 1) = true ∧ e = "vibrant" then 1 else 0) +
       (if (scenes.contains SceneType.studio && scenes.length == 1) = true ∧ m ≠ "none" then 1 else 0) +
       (if (scenes.contains SceneType.studio && scenes.length == 1) = true ∧ l ≠ "soft diffused" ∧ l ≠ "bright even" then 1 else 0) +
       (if scenes.contains SceneType.lifestyle = true ∧ l = "directional" then 1 else 0)) ∧
    ((resolveConflicts scenes ⟨t, e, m, l, false, []⟩).wasOverridden = true ↔
      (resolveConflicts scenes ⟨t, e, m, l, false, []⟩).overrideNotes ≠ []) := by
  have hexcl : (scenes.contains SceneType.studio && scenes.length == 1) = true →
      scenes.contains SceneType.lifestyle = false := by
    intro h
    rw [studioOnly_cases scenes h]
    decide
  exact resolveChain_spec _ _ _ t e m l hexcl

theorem scenePromptPositive_none (req : SceneGenerationRequest) (lead : String)
    (s : SceneType) (hbc : req.businessContext = none) (hb : req.brandContext = none) :
    scenePromptPositive req lead s =
      lead ++ (PROMPT_BUILDERS s req.product.productName req.interpretation).positive := by
  unfold scenePromptPositive
  rw [hbc, hb]

theorem generateScenesAux_promptUsed (req : SceneGenerationRequest)
    (g : Nat → Nat → Nat → AttemptResult) (p : Nat → Except String String)
    (now : Nat) (lead : String) :
    ∀ (scenes : List SceneType) (i : Nat) (results : List GeneratedScene),
    generateScenesAux req g p now lead i scenes = Except.ok results →
    ∀ r ∈ results, r.promptUsed = scenePromptPositive req lead r.sceneType := by
  intro scenes
  induction scenes with
  | nil =>
    intro i results h r hr
    rw [generateScenesAux] at h
    cases h
    simp at hr
  | cons st rest ih =>
    intro i results h r hr
    rw [generateScenesAux] at h
    cases hg : generateSceneWithGemini (g i) with
    | ok img =>
      rw [hg] at h
      cases haux : generateScenesAux req g p now lead (i + 1) rest with
      | ok results' =>
        rw [haux] at h
        cases h
        rcases List.mem_cons.mp hr with hhd | htl
        · rw [hhd]
        · exact ih (i + 1) results' haux r htl
      | error e =>
        rw [haux] at h
        cases h
    | error gm =>
      rw [hg] at h
      cases hp : p i with
      | ok img =>
        rw [hp] at h
        cases haux : generateScenesAux req g p now lead (i + 1) rest with
        | ok results' =>
          rw [haux] at h
          cases h
          rcases List.mem_cons.mp hr with hhd | htl
          · rw [hhd]
          · exact ih (i + 1) results' haux r htl
        | error e =>
          rw [haux] at h
          cases h
      | error pm =>
        rw [hp] at h
        cases h

-- ══════════════ Concrete payloads and oracles ══════════════

/-- A payload of base64 body length 19800, decoding to roughly 14.5 KB:
quality score 40. -/
def okPayload : String := mkDataUrl (List.replicate 19800 'A')

/-- A payload of base64 body length 406187, decoding to roughly 297.6 KB:
quality score 60 (immediate acceptance). -/
def bigPayload : String := mkDataUrl (List.replicate 406187 'A')

/-- A payload of base64 body length 68267: decoded size 51200.25 bytes,
just above 50 KB; quality score 40. -/
def kb50Payload : String := mkDataUrl (List.replicate 68267 'A')

/-- A payload of base64 body length 6400: decoded size 4800 bytes, below
5 KB, yet the rounded size is 5 KB so the score is 20, not 0. -/
def smallPayload : String := mkDataUrl (List.replicate 6400 'A')

/-- A payload of base64 body length 10000: score 20 (suspiciously small). -/
def lowPayload : String := mkDataUrl (List.replicate 10000 'A')

theorem validate_okPayload : validateImageQuality okPayload = (40, "OK") := by
  rw [okPayload, validateImageQuality_mkDataUrl, List.length_replicate]
  decide

theorem validate_bigPayload : validateImageQuality bigPayload = (60, "OK") := by
  rw [bigPayload, validateImageQuality_mkDataUrl, List.length_replicate]
  decide

theorem validate_kb50Payload : validateImageQuality kb50Payload = (40, "OK") := by
  rw [kb50Payload, validateImageQuality_mkDataUrl, List.length_replicate]
  decide

theorem validate_smallPayload :
    validateImageQuality smallPayload = (20, "Image suspiciously small") := by
  rw [smallPayload, validateImageQuality_mkDataUrl, List.length_replicate]
  decide

theorem validate_lowPayload :
    validateImageQuality lowPayload = (20, "Image suspiciously small") := by
  rw [lowPayload, validateImageQuality_mkDataUrl, List.length_replicate]
  decide

/-- The batch-wide interpretation of the end-to-end scenario. -/
def mugInterp : MoodInterpretation :=
  interpretMood "warm cozy" [SceneType.studio, SceneType.lifestyle]

def mugProduct : ProductInputData :=
  { imageBase64 := "IMG", additionalImages := [], productName := "ceramic mug" }

/-- The end-to-end request: `scenes=["studio","lifestyle"], moodText="warm cozy",
product="ceramic mug"`, no business or brand context. -/
def mugRequest : SceneGenerationRequest :=
  { product := mugProduct
    scenes := [SceneType.studio, SceneType.lifestyle]
    moodText := "warm cozy"
    interpretation := mugInterp
    businessContext := none
    brandContext := none }

/-- Oracle on which every Gemini attempt returns one score-40 candidate. -/
def okOracleG : Nat → Nat → Nat → AttemptResult :=
  fun _ _ _ => AttemptResult.images [okPayload]

def okOracleP : Nat → Except String String :=
  fun _ => Except.error "pollinations unused"

def mugScene (s : SceneType) : GeneratedScene :=
  { sceneType := s
    imageBase64 := okPayload
    promptUsed := scenePromptPositive mugRequest buildConsistencyLead s
    generatedAt := 7
    provider := "gemini" }

theorem gemini_okOracle (i : Nat) :
    generateSceneWithGemini (okOracleG i) = Except.ok okPayload :=
  cascade_const_ok okPayload (by rw [validate_okPayload]; decide)

theorem mugRun_eq :
    generateScenes mugRequest okOracleG okOracleP 7 =
      Except.ok [mugScene SceneType.studio, mugScene SceneType.lifestyle] := by
  unfold generateScenes
  have hs : mugRequest.scenes = [SceneType.studio, SceneType.lifestyle] := rfl
  rw [hs]
  rw [if_pos (by norm_num)]
  rw [generateScenesAux, gemini_okOracle 0]
  dsimp only
  rw [generateScenesAux, gemini_okOracle 1]
  dsimp only
  rw [generateScenesAux]
  rfl

/-- Second-attempt acceptance: a below-60 candidate on the first attempt is
retained, and a 60-scoring candidate on the second attempt is accepted
immediately, superseding it. -/
theorem cascade_second_accept (g : Nat → Nat → AttemptResult) (p₁ p₂ : String)
    (h00 : g 0 0 = AttemptResult.images [p₁]) (h01 : g 0 1 = AttemptResult.images [p₂])
    (h160 : (validateImageQuality p₁).1 < 60) (h260 : 60 ≤ (validateImageQuality p₂).1) :
    generateSceneWithGemini g = Except.ok p₂ := by
  apply gemini_of_try_inl
  rw [range_MAX_RETRIES, tryAttempts, h00]
  dsimp only
  rw [scanParts_single_low p₁ none (-1) (natCast_gt_neg_one _) h160]
  dsimp only
  rw [if_neg (by simp), tryAttempts, h01]
  dsimp only
  rw [scanParts_accepted p₂ [] _ _ h260]

-- ══════════════ Claim-specific oracles ══════════════

/-- Oracle whose first-model attempts return a ≥50 KB candidate first and a
≥60-scoring candidate second. -/
def c2Oracle : Nat → Nat → AttemptResult :=
  fun m a =>
    if m = 0 ∧ a = 0 then AttemptResult.images [kb50Payload]
    else if m = 0 ∧ a = 1 then AttemptResult.images [bigPayload]
    else AttemptResult.error "cascade exhausted"

/-- Oracle on which every Gemini attempt returns one score-60 candidate. -/
def c4OracleA : Nat → Nat → AttemptResult :=
  fun _ _ => AttemptResult.images [bigPayload]

/-- Oracle whose first-model attempts return a score-40 candidate then a
score-20 candidate. -/
def c4OracleB : Nat → Nat → AttemptResult :=
  fun m a =>
    if m = 0 ∧ a = 0 then AttemptResult.images [okPayload]
    else if m = 0 ∧ a = 1 then AttemptResult.images [lowPayload]
    else AttemptResult.error "cascade exhausted"

/-- Oracle on which every Gemini attempt throws. -/
def failOracleG : Nat → Nat → Nat → AttemptResult :=
  fun _ _ _ => AttemptResult.error "boom"

/-- Oracle on which every Pollinations fetch fails. -/
def failOracleP : Nat → Except String String :=
  fun _ => Except.error "poll-fail"

/-- Oracle on which every Gemini attempt returns one fixed candidate. -/
def constOracle (P : String) : Nat → Nat → AttemptResult :=
  fun _ _ => AttemptResult.images [P]

-- ══════════════ Claims ══════════════

/-- C1 counterexample: for the batch request `scenes=["studio","lifestyle"]`,
`moodText="warm cozy"`, the claim asserts the resolver forces
`temperature=neutral` for the studio scene and records an override.  The code
computes ONE interpretation for the whole batch, and its studio rules fire
only when studio is the sole selected scene: here the interpretation keeps
`temperature="warm"` with `wasOverridden=false` and no override notes, for
both scenes. -/
theorem c1_counterexample :
    (interpretMood "warm cozy" [SceneType.studio, SceneType.lifestyle]).temperature = "warm" ∧
    (interpretMood "warm cozy" [SceneType.studio, SceneType.lifestyle]).wasOverridden = false ∧
    (interpretMood "warm cozy" [SceneType.studio, SceneType.lifestyle]).overrideNotes = [] := by
  decide

set_option maxRecDepth 8192 in
/-- C1 (amended): for the batch request `scenes=["studio","lifestyle"]`,
`moodText="warm cozy"`, product `"ceramic mug"`: the sanitizer passes the
text through unchanged, the classifier yields `temperature=warm`, and — since
studio is not the only selected scene — the resolver applies no studio
override: the single batch-wide interpretation keeps `temperature=warm`
(`wasOverridden=false`, no notes) and is shared by both scenes.  On success
the output is exactly 2 `GeneratedScene` entries in `[studio, lifestyle]`
order, each with a non-empty `promptUsed` containing `"ceramic mug"`. -/
theorem c1_end_to_end :
    sanitizeInput "warm cozy" = "warm cozy" ∧
    mugInterp.temperature = "warm" ∧
    mugInterp.wasOverridden = false ∧
    mugInterp.overrideNotes = [] ∧
    generateScenes mugRequest okOracleG okOracleP 7 =
      Except.ok [mugScene SceneType.studio, mugScene SceneType.lifestyle] ∧
    (mugScene SceneType.studio).promptUsed ≠ "" ∧
    (mugScene SceneType.lifestyle).promptUsed ≠ "" ∧
    strContains (mugScene SceneType.studio).promptUsed "ceramic mug" = true ∧
    strContains (mugScene SceneType.lifestyle).promptUsed "ceramic mug" = true := by
  refine ⟨by decide, by decide, by decide, by decide, mugRun_eq, ?_, ?_, ?_, ?_⟩ <;> decide

/-- C2 counterexample: the claim says a payload decoding to below 5 KB scores
0, and a payload decoding to at least 50 KB scores above the acceptance
threshold and is accepted on the first attempt.  Both parts fail:
`smallPayload` decodes to 4800 bytes (&lt; 5 KB) yet scores 20 because the code
rounds the size to the nearest KB before comparing; `kb50Payload` decodes to
50.0 KB yet scores only 40, below the code's immediate-acceptance bar of 60 —
on an oracle whose second attempt returns a 60-scoring candidate, the cascade
returns that second candidate instead of accepting the 50 KB one on the first
attempt. -/
theorem c2_counterexample :
    (validateImageQuality smallPayload).1 = 20 ∧
    (validateImageQuality kb50Payload).1 = 40 ∧
    ¬ 60 ≤ (validateImageQuality kb50Payload).1 ∧
    generateSceneWithGemini c2Oracle = Except.ok bigPayload ∧
    bigPayload ≠ kb50Payload := by
  refine ⟨by rw [validate_smallPayload], by rw [validate_kb50Payload],
    by rw [validate_kb50Payload]; decide, ?_, ?_⟩
  · exact cascade_second_accept c2Oracle kb50Payload bigPayload rfl rfl
      (by rw [validate_kb50Payload]; decide) (by rw [validate_bigPayload])
  · intro h
    have h2 : (validateImageQuality bigPayload).1 = (validateImageQuality kb50Payload).1 := by
      rw [h]
    rw [validate_bigPayload, validate_kb50Payload] at h2
    exact absurd h2 (by decide)

/-- C2 (amended): a payload whose decoded size rounds below 5 KB (decoded
size under 4.5 KB) scores 0 and is rejected; a well-formed data-URL payload
decoding to at least 50 KB scores at least 40 — above the minimum-usable
threshold `QUALITY_THRESHOLD` (30), so the primary model's cascade accepts it
(immediately when its score reaches 60, otherwise as the retained best after
the variant's attempts) — but not necessarily on the first attempt. -/
theorem c2_validator_thresholds (l : List Char) :
    (3 * l.length < 18432 → (validateImageQuality (mkDataUrl l)).1 = 0) ∧
    (204800 ≤ 3 * l.length →
      40 ≤ (validateImageQuality (mkDataUrl l)).1 ∧
      QUALITY_THRESHOLD < (validateImageQuality (mkDataUrl l)).1 ∧
      generateSceneWithGemini (constOracle (mkDataUrl l)) = Except.ok (mkDataUrl l)) := by
  constructor
  · intro h
    rw [validateImageQuality_mkDataUrl, if_pos (by simp only [jsRound]; omega)]
  · intro h
    have hsc : (validateImageQuality (mkDataUrl l)).1 =
        max 40 (min 100 (jsRound (jsRound (l.length * 3) (4 * 1024)) 5)) := by
      rw [validateImageQuality_mkDataUrl,
        if_neg (by simp only [jsRound]; omega), if_neg (by simp only [jsRound]; omega)]
    have h40 : 40 ≤ (validateImageQuality (mkDataUrl l)).1 := by
      rw [hsc]
      exact le_max_left _ _
    have hQ : QUALITY_THRESHOLD = 30 := rfl
    exact ⟨h40, by omega, cascade_const_ok _ (by omega)⟩

/-- C2 witness: a 1000-character base64 body decodes below 4.5 KB and scores
0; a 68267-character body decodes just above 50 KB and its candidate is
accepted by the cascade. -/
theorem c2_validator_thresholds_witness :
    (3 * (List.replicate 1000 'A').length < 18432 ∧
      (validateImageQuality (mkDataUrl (List.replicate 1000 'A'))).1 = 0) ∧
    (204800 ≤ 3 * (List.replicate 68267 'A').length ∧
      generateSceneWithGemini (constOracle (mkDataUrl (List.replicate 68267 'A'))) =
        Except.ok (mkDataUrl (List.replicate 68267 'A'))) :=
  ⟨⟨by norm_num, (c2_validator_thresholds (List.replicate 1000 'A')).1 (by norm_num)⟩,
   ⟨by norm_num,
    ((c2_validator_thresholds (List.replicate 68267 'A')).2 (by norm_num)).2.2⟩⟩

/-- C3 counterexample: on the token list `["warm", "cool"]` the temperature
categories warm and cool tie at one hit each, and the code returns the
first-listed category `"warm"`, not the claimed per-dimension default
`"neutral"`.  On `["marb"]` the material classifier returns `"none"`: it only
tests token-contains-keyword, not the claimed two-directional substring match
(which would count `"marb"` ⊂ `"marble"` and yield `"marble"`). -/
theorem c3_counterexample :
    classifyByKeywords ["warm", "cool"] TEMPERATURE_KEYWORDS "neutral" = "warm" ∧
    classifyByKeywords ["warm", "cool"] TEMPERATURE_KEYWORDS "neutral" ≠ "neutral" ∧
    classifyMaterial ["marb"] = "none" ∧
    classifyMaterial ["marb"] ≠ "marble" := by
  decide

/-- C3 (amended): for each mood dimension, classification counts the tokens
matching each category's keywords — substring match in both directions for
temperature, energy and light quality, but token-contains-keyword only for
material — and returns the first-listed category attaining the maximal count
when that count is positive; the fixed per-dimension default (`neutral`,
`moderate`, `none`, `soft diffused`) is returned only when every category
scores zero. -/
theorem c3_classifier_selection (words : List String) :
    classifyByKeywords words TEMPERATURE_KEYWORDS "neutral" =
      firstMaxCategory (scoreTable words bothDirMatch TEMPERATURE_KEYWORDS) "neutral" ∧
    classifyByKeywords words ENERGY_KEYWORDS "moderate" =
      firstMaxCategory (scoreTable words bothDirMatch ENERGY_KEYWORDS) "moderate" ∧
    classifyMaterial words =
      firstMaxCategory (scoreTable words oneDirMatch MATERIAL_KEYWORDS) "none" ∧
    classifyLightQuality words =
      firstMaxCategory (scoreTable words bothDirMatch LIGHT_QUALITY_KEYWORDS) "soft diffused" :=
  ⟨classifyFold_eq_firstMax words bothDirMatch TEMPERATURE_KEYWORDS "neutral",
   classifyFold_eq_firstMax words bothDirMatch ENERGY_KEYWORDS "moderate",
   classifyFold_eq_firstMax words oneDirMatch MATERIAL_KEYWORDS "none",
   classifyFold_eq_firstMax words bothDirMatch LIGHT_QUALITY_KEYWORDS "soft diffused"⟩

/-- C4: within the primary-provider model cascade, per model variant: each
candidate is scored, and one whose score reaches the acceptance bar (60) is
accepted immediately, no matter what later attempts would return; when both
attempts (retry ceiling `MAX_RETRIES = 2`) finish below the bar, the
best-scoring candidate is retained — accepted when its score reaches
`QUALITY_THRESHOLD` (30), and only otherwise does the cascade continue with
the next model variants. -/
theorem c4_model_cascade :
    (∀ (g : Nat → Nat → AttemptResult) (p : String) (ps : List String),
      g 0 0 = AttemptResult.images (p :: ps) → 60 ≤ (validateImageQuality p).1 →
      generateSceneWithGemini g = Except.ok p) ∧
    (∀ (g : Nat → Nat → AttemptResult) (p₁ p₂ : String),
      g 0 0 = AttemptResult.images [p₁] → g 0 1 = AttemptResult.images [p₂] →
      (validateImageQuality p₁).1 < 60 →
      (validateImageQuality p₂).1 ≤ (validateImageQuality p₁).1 →
      ((QUALITY_THRESHOLD ≤ (validateImageQuality p₁).1 →
        generateSceneWithGemini g = Except.ok p₁) ∧
       ((validateImageQuality p₁).1 < QUALITY_THRESHOLD →
        generateSceneWithGemini g =
          runModels g [(1, "gemini-2.5-flash-image"), (2, "gemini-2.0-flash-exp")]
            (some ("gemini-3-pro-image-preview" ++ " output quality too low (score: " ++
              toString ((validateImageQuality p₁).1 : Int) ++ ")"))))) := by
  constructor
  · exact fun g p ps h00 h60 => cascade_accept_first g p ps h00 h60
  · intro g p₁ p₂ h00 h01 h160 h2le
    have htry := cascade_retained g p₁ p₂ h00 h01 h160 h2le
    constructor
    · intro h30
      exact gemini_of_try_retained g p₁ _ none htry (by exact_mod_cast h30)
    · intro h30
      unfold generateSceneWithGemini
      rw [modelsToTry_enum_eq, runModels, htry]
      dsimp only
      rw [if_neg (by have hQ : QUALITY_THRESHOLD = 30 := rfl; omega)]

/-- C4 witness: a 60-scoring candidate on the first attempt is accepted
immediately; a 40-scoring candidate followed by a 20-scoring one is retained
and accepted without consulting the next model variant. -/
theorem c4_model_cascade_witness :
    generateSceneWithGemini c4OracleA = Except.ok bigPayload ∧
    generateSceneWithGemini c4OracleB = Except.ok okPayload :=
  ⟨c4_model_cascade.1 c4OracleA bigPayload [] rfl (by rw [validate_bigPayload]),
   (c4_model_cascade.2 c4OracleB okPayload lowPayload rfl rfl
      (by rw [validate_okPayload]; decide)
      (by rw [validate_okPayload, validate_lowPayload]; decide)).1
    (by rw [validate_okPayload]; decide)⟩

/-- C5: if the first scene of a batch exhausts the whole cascade — the Gemini
call errors and the Pollinations fallback errors — the batch raises a single
aggregated error immediately: no `GeneratedScene` list is returned, and the
result does not depend on the oracles at any later scene index, so no later
scene is attempted even if it would have succeeded. -/
theorem c5_batch_abort (req : SceneGenerationRequest) (s1 : SceneType)
    (rest : List SceneType) (g : Nat → Nat → Nat → AttemptResult)
    (p : Nat → Except String String) (now : Nat) (gmsg pmsg : String)
    (hscenes : req.scenes = s1 :: rest)
    (hg : generateSceneWithGemini (g 0) = Except.error gmsg)
    (hp : p 0 = Except.error pmsg) :
    generateScenes req g p now = Except.error (buildHelpText s1 gmsg pmsg) := by
  unfold generateScenes
  rw [hscenes, generateScenesAux, hg]
  dsimp only
  rw [hp]

/-- C5 witness: a two-scene batch whose first scene fails on both providers
raises the aggregated diagnostic; the lifestyle scene is never generated. -/
theorem c5_batch_abort_witness :
    generateScenes mugRequest failOracleG failOracleP 7 =
      Except.error (buildHelpText SceneType.studio "boom" "poll-fail") :=
  c5_batch_abort mugRequest SceneType.studio [SceneType.lifestyle] failOracleG failOracleP 7
    "boom" "poll-fail" rfl rfl rfl

/-- C6: for every raw mood text and scene selection, the resolved
interpretation has `wasOverridden = true` exactly when its `overrideNotes`
list is non-empty, and that list contains exactly one entry per fired
"yes"-flagged rule (`firedYesRuleCount`): the four studio-only rules and the
lifestyle light rule.  The editorial light-preference and material-fill
adjustments contribute no note and never set the flag. -/
theorem c6_override_accounting (raw : String) (scenes : List SceneType) :
    ((interpretMood raw scenes).wasOverridden = true ↔
      (interpretMood raw scenes).overrideNotes ≠ []) ∧
    (interpretMood raw scenes).overrideNotes.length = firedYesRuleCount raw scenes := by
  unfold interpretMood firedYesRuleCount
  by_cases h : (sanitizeInput raw).length < 2
  · rw [if_pos h, if_pos h]
    unfold getDefaultInterpretation
    simp
  · rw [if_neg h, if_neg h]
    dsimp only
    exact ⟨(resolveConflicts_spec scenes _ _ _ _).2, (resolveConflicts_spec scenes _ _ _ _).1⟩

/-- C7: when the mood text sanitizes to fewer than 2 characters and the
selection is exactly `["editorial"]`, classification is skipped and the
scene-aware defaults apply: `materialBias = "concrete"`,
`lightQuality = "directional"`, `temperature = "neutral"`, `energy = "calm"`,
no override flag and no notes. -/
theorem c7_editorial_defaults (raw : String) (h : (sanitizeInput raw).length < 2) :
    interpretMood raw [SceneType.editorial] =
      { temperature := "neutral", energy := "calm", materialBias := "concrete",
        lightQuality := "directional", rawInput := raw,
        wasOverridden := false, overrideNotes := [] } := by
  unfold interpretMood
  rw [if_pos h]
  rfl

/-- C7 witness: the empty mood text sanitizes to the empty string. -/
theorem c7_editorial_defaults_witness :
    (sanitizeInput "").length < 2 ∧
    interpretMood "" [SceneType.editorial] =
      { temperature := "neutral", energy := "calm", materialBias := "concrete",
        lightQuality := "directional", rawInput := "",
        wasOverridden := false, overrideNotes := [] } :=
  ⟨by decide, c7_editorial_defaults "" (by decide)⟩

/-- C8: in any successful batch, every returned scene's positive prompt is the
compiled builder output, prepended with the fixed consistency directive
exactly when the batch requests more than one scene (stated for requests with
no business or brand context, which otherwise append trailing guidance). -/
theorem c8_consistency_lead (req : SceneGenerationRequest)
    (g : Nat → Nat → Nat → AttemptResult) (p : Nat → Except String String)
    (now : Nat) (results : List GeneratedScene)
    (hbc : req.businessContext = none) (hb : req.brandContext = none)
    (hok : generateScenes req g p now = Except.ok results) :
    ∀ r ∈ results, r.promptUsed =
      (if req.scenes.length > 1 then buildConsistencyLead else "") ++
      (PROMPT_BUILDERS r.sceneType req.product.productName req.interpretation).positive := by
  intro r hr
  have haux : generateScenesAux req g p now
      (if req.scenes.length > 1 then buildConsistencyLead else "") 0 req.scenes =
      Except.ok results := hok
  have h := generateScenesAux_promptUsed req g p now
    (if req.scenes.length > 1 then buildConsistencyLead else "") req.scenes 0 results haux r hr
  rw [h, scenePromptPositive_none req _ r.sceneType hbc hb]

/-- C8 witness: in the two-scene mug batch the studio scene's prompt carries
the consistency directive in front of the compiled studio prompt. -/
theorem c8_consistency_lead_witness :
    (mugScene SceneType.studio).promptUsed =
      (if mugRequest.scenes.length > 1 then buildConsistencyLead else "") ++
      (PROMPT_BUILDERS (mugScene SceneType.studio).sceneType mugRequest.product.productName
        mugRequest.interpretation).positive :=
  c8_consistency_lead mugRequest okOracleG okOracleP 7
    [mugScene SceneType.studio, mugScene SceneType.lifestyle] rfl rfl mugRun_eq
    (mugScene SceneType.studio) (by simp)

/-- C9: prompt compilation is deterministic and in fact depends only on the
archetype, the product name, and the interpretation's temperature, energy and
materialBias fields: two calls whose inputs agree on these produce identical
`PromptPair`s — in particular identical `(archetype, interpretation,
productName)` inputs always yield byte-identical pairs. -/
theorem c9_compiler_determinism (s : SceneType) (product : String)
    (i₁ i₂ : MoodInterpretation)
    (ht : i₁.temperature = i₂.temperature) (he : i₁.energy = i₂.energy)
    (hm : i₁.materialBias = i₂.materialBias) :
    PROMPT_BUILDERS s product i₁ = PROMPT_BUILDERS s product i₂ := by
  cases s <;>
    simp [PROMPT_BUILDERS, buildStudioPrompt, buildLifestylePrompt, buildEditorialPrompt,
      buildMoodModifier, buildMaterialHint, ht, he, hm]

/-- C9 witness: two interpretations with identical mood dimensions but
different rawInput, lightQuality and override bookkeeping compile to the same
lifestyle prompt pair. -/
theorem c9_compiler_determinism_witness :
    PROMPT_BUILDERS SceneType.lifestyle "cup"
      ⟨"warm", "calm", "wood", "golden hour", "first call", false, []⟩ =
    PROMPT_BUILDERS SceneType.lifestyle "cup"
      ⟨"warm", "calm", "wood", "directional", "second call", true, ["n"]⟩ :=
  c9_compiler_determinism SceneType.lifestyle "cup"
    ⟨"warm", "calm", "wood", "golden hour", "first call", false, []⟩
    ⟨"warm", "calm", "wood", "directional", "second call", true, ["n"]⟩ rfl rfl rfl

/-- C10: every Quality Validator score lies in the set \x7b0, 20\x7d ∪ [40, 100],
so no score equals the minimum-usable threshold `QUALITY_THRESHOLD` (30); a
payload passing the size check (decoded size at least 15 KB, i.e.
`61440 ≤ 3·rawLength`) and the data-URL format check scores at least 40; and
a model variant whose first attempt yields any such candidate always ends in
acceptance (the cascade returns `ok`), never in a below-minimum rejection. -/
theorem c10_score_structure :
    (∀ s : String, (validateImageQuality s).1 = 0 ∨ (validateImageQuality s).1 = 20 ∨
      (40 ≤ (validateImageQuality s).1 ∧ (validateImageQuality s).1 ≤ 100)) ∧
    (∀ s : String, (validateImageQuality s).1 ≠ QUALITY_THRESHOLD) ∧
    (∀ s : String, dataUrlHead.isPrefixOf s.toList = true →
      61440 ≤ 3 * (stripBase64Head s).length → 40 ≤ (validateImageQuality s).1) ∧
    (∀ (g : Nat → Nat → AttemptResult) (p : String) (ps : List String),
      g 0 0 = AttemptResult.images (p :: ps) → 40 ≤ (validateImageQuality p).1 →
      (generateSceneWithGemini g).isOk = true) := by
  refine ⟨?_, ?_, ?_, fun g p ps h00 h40 => cascade_first_good g p ps h00 h40⟩
  · intro s
    simp only [validateImageQuality]
    split_ifs
    · exact Or.inl rfl
    · exact Or.inr (Or.inl rfl)
    · exact Or.inl rfl
    · exact Or.inr (Or.inr ⟨le_max_left _ _, max_le (by norm_num) (min_le_left _ _)⟩)
  · intro s
    simp only [validateImageQuality]
    split_ifs
    · decide
    · decide
    · decide
    · show max 40 (min 100 (jsRound (jsRound ((stripBase64Head s).length * 3) (4 * 1024)) 5)) ≠
        QUALITY_THRESHOLD
      have h40 := le_max_left 40
        (min 100 (jsRound (jsRound ((stripBase64Head s).length * 3) (4 * 1024)) 5))
      have hQ : QUALITY_THRESHOLD = 30 := rfl
      omega
  · intro s hpre hlen
    simp only [validateImageQuality]
    rw [if_neg (by simp only [jsRound]; omega), if_neg (by simp only [jsRound]; omega), hpre]
    simp only [Bool.not_true]
    rw [if_neg Bool.false_ne_true]
    exact le_max_left _ _

/-- C10 witness: the 68267-character PNG data URL decodes above 15 KB, passes
both checks and scores at least 40; an oracle returning the 40-scoring
`okPayload` on the first attempt always ends accepted. -/
theorem c10_score_structure_witness :
    (dataUrlHead.isPrefixOf kb50Payload.toList = true ∧
      61440 ≤ 3 * (stripBase64Head kb50Payload).length ∧
      40 ≤ (validateImageQuality kb50Payload).1) ∧
    ((okOracleG 0) 0 0 = AttemptResult.images [okPayload] ∧
      (generateSceneWithGemini (okOracleG 0)).isOk = true) := by
  have hp : dataUrlHead.isPrefixOf kb50Payload.toList = true :=
    dataUrlHead_isPrefixOf_mkDataUrl (List.replicate 68267 'A')
  have hl : 61440 ≤ 3 * (stripBase64Head kb50Payload).length := by
    rw [kb50Payload, stripBase64Head_mkDataUrl, List.length_replicate]
    norm_num
  exact ⟨⟨hp, hl, c10_score_structure.2.2.1 kb50Payload hp hl⟩,
    ⟨rfl, c10_score_structure.2.2.2 (okOracleG 0) okPayload [] rfl
      (by rw [validate_okPayload])⟩⟩
